import Mathlib

/-!
Verification of the client import / reconciliation engine
(`services.py`, `helper.py`, `repositories.py`).

The embedding translates the Python source directly:

* Python scalar values that may be absent or `None` are `Option String`
  (the code never distinguishes a missing dict key from a key stored as
  `None`: every access goes through `.get`, `in ... and ... is not None`,
  or truthiness, all of which collapse the two).
* Python truthiness on such values (`if x:`) is `truthy`:
  `None` and `""` are falsy, every other string is truthy.
* The phone-number list is `List (Option String)` — `None` entries are
  permitted and preserved, as in the source.
* The SQLAlchemy session/store is an explicit `Store`: a list of persisted
  clients plus a script of outcomes for successive persistence operations
  (`save` = add + commit, and the bare `session.commit()` inside
  `_update_client`). `none` in the script means the operation succeeds,
  `some msg` means it raises an exception whose `str` is `msg`.
  Query operations never raise.
* A raised exception that the code does not catch is `Except.error msg`
  propagating out of the translated function.
-/

/-- Python truthiness for an optional string: `None` and `""` are falsy. -/
def truthy : Option String → Bool
  | none => false
  | some s => !s.isEmpty

/-- Whether `pat` is a prefix of `s` (on character lists). -/
def charsLeadEq : List Char → List Char → Bool
  | [], _ => true
  | _ :: _, [] => false
  | a :: as, b :: bs => a == b && charsLeadEq as bs

/-- Whether `pat` occurs as a contiguous run inside `s`. -/
def charsContain (pat : List Char) : List Char → Bool
  | [] => pat.isEmpty
  | c :: rest => charsLeadEq pat (c :: rest) || charsContain pat rest

/-- Python `pat in s` substring test (used on exception messages and on
phone strings). -/
def strContains (s pat : String) : Bool :=
  charsContain pat.data s.data

/-- Python `s.lower()`. -/
def pyLower (s : String) : String :=
  String.mk (s.data.map Char.toLower)

/-- Python `s.split(" ")`: split on every single space, preserving empty
pieces; splitting the empty string yields `[""]`. -/
def pySplitSpaceAux (cur : List Char) : List Char → List String
  | [] => [String.mk cur]
  | c :: cs =>
    if c == ' ' then String.mk cur :: pySplitSpaceAux [] cs
    else pySplitSpaceAux (cur.concat c) cs

/-- Python `s.split(" ")` on a string. -/
def pySplitSpace (s : String) : List String :=
  pySplitSpaceAux [] s.data

/-- Python `a or b` on optional strings: `a` if truthy, else `b`. -/
def pyOr (a b : Option String) : Option String :=
  if truthy a then a else b

-- Error message constants (constants.py / helper.py).

def CLIENT_MISSING_NAME : String := "Client missing name."
def CLIENT_NOT_FOUND_STOP_ZAP : String := "Client not found, stopping import."
def CLIENT_UPDATED : String := "Client updated."
def CSV_IMPORT : String := "CSV_IMPORT"
def THIRD_PARTY : String := "THIRD_PARTY"
def MYCASE : String := "MYCASE"

/-- Python `str(x)` for an optional string, as used by `"...{}".format(x)`:
`None` prints as `"None"`. -/
def pyStr : Option String → String
  | none => "None"
  | some s => s

/-- `CELL_PHONE_INVALID.format(display)` (helper.py). -/
def CELL_PHONE_INVALID_fmt (display : String) : String :=
  "Cell phone invalid: " ++ display

/-- `USER_ALREADY_EXISTS.format(email, phone)` (helper.py). -/
def USER_ALREADY_EXISTS_fmt (email phone : Option String) : String :=
  "User already exists: " ++ pyStr email ++ ", " ++ pyStr phone

/-- The persisted Client entity (models.py). `id` is store-assigned and
plays no role in the logic under verification. -/
structure Client where
  id : Nat := 0
  firm_id : Nat := 0
  first_name : Option String := none
  last_name : Option String := none
  birth_date : Option String := none
  email : Option String := none
  cell_phone : Option String := none
  integration_id : Option String := none
  ssn : Option String := none
  deriving Repr, DecidableEq

/-- Firm domain model (models.py) with its two integration-settings flags
read via `integration_settings.get(..., False)`. -/
structure Firm where
  id : Nat
  is_corporate : Bool
  sync_client_contact_info : Bool := false
  update_client_missing_data : Bool := false
  deriving Repr, DecidableEq

/-- The incoming `field_names` dict. Only the keys the code reads are
modelled; a key that is absent or maps to `None` is `none`. -/
structure FieldNames where
  first_name : Option String := none
  last_name : Option String := none
  name : Option String := none
  email : Option String := none
  phone_numbers : List (Option String) := []
  client_type : Option String := none
  birth_date : Option String := none
  ssn : Option String := none
  cell_phone : Option String := none
  integration_id : Option String := none
  deriving Repr, DecidableEq

/-- The mutable echo-back `row` dict. The first four keys are always
(re)assigned by the handler; the last three are present only when set. -/
structure Row where
  email : Option String := none
  first_name : Option String := none
  last_name : Option String := none
  cell_phone : Option String := none
  error_fields : Option (List String) := none
  error_message : Option String := none
  success_msg : Option String := none
  deriving Repr, DecidableEq

/-- The SQLAlchemy session together with the database it fronts:
persisted clients plus a script of outcomes for successive persistence
operations (commit of a save, or the commit inside `_update_client`).
An empty script means every remaining operation succeeds. -/
structure Store where
  clients : List Client := []
  failures : List (Option String) := []
  deriving Repr, DecidableEq

/-- Consume the next scripted persistence outcome. -/
def popFailure (st : Store) : Option String × Store :=
  match st.failures with
  | [] => (none, st)
  | f :: rest => (f, { st with failures := rest })

/-- Replace the first occurrence of `orig` in the persisted list by `c`
(the effect of committing in-place mutations of a persistent instance). -/
def replaceFirst : List Client → Client → Client → List Client
  | [], _, _ => []
  | x :: xs, orig, c => if x = orig then c :: xs else x :: replaceFirst xs orig c

/-- `session.add(c); session.commit()` for an instance `c` evolved from
`orig`: a persistent instance is updated in place, a transient one is
inserted (`ClientRepository.save`). -/
def upsertClient (cs : List Client) (orig c : Client) : List Client :=
  if cs.contains orig then replaceFirst cs orig c else cs ++ [c]

/-- `ClientRepository.find_by_integration_id` (repositories.py):
first client with the given firm id and integration id. -/
def find_by_integration_id (st : Store) (firm_id : Nat) (iid : Option String) :
    Option Client :=
  st.clients.find? (fun c => c.firm_id == firm_id && c.integration_id == iid)

/-- `ClientRepository.find_by_email_address` (repositories.py). -/
def find_by_email_address (st : Store) (email : Option String) (firm_id : Nat) :
    Option Client :=
  st.clients.find? (fun c => c.email == email && c.firm_id == firm_id)

/-- `ClientRepository.find_by_phone_number_firm` (repositories.py). -/
def find_by_phone_number_firm (st : Store) (phone : Option String) (firm_id : Nat) :
    Option Client :=
  st.clients.find? (fun c => c.cell_phone == phone && c.firm_id == firm_id)

/-- `UserRepository.find_by_email_address` (repositories.py): the body is
a stub (`pass`), so it returns `None` for every input. -/
def user_find_by_email_address (_st : Store) (_email : Option String) :
    Option Unit :=
  none

/-- `identify_orphaned_user_by_phone_number` (helper.py): the body is a
stub (`pass`), so it returns `None` for every input. -/
def identify_orphaned_user_by_phone_number (_st : Store)
    (_phone : Option String) (_fn _ln _email : Option String) : Option Unit :=
  none

/-- `encrypt_ssn` (helper.py): returns the SSN as-is. -/
def encrypt_ssn (ssn : String) : String := ssn

/-- `ImportCaseHelper.parse_cell_phone_number` (services.py):
falsy input or a number containing "invalid" (case-insensitive) is
rejected; everything else accepted. The firm argument is unused. -/
def parse_cell_phone_number (number : Option String) (_firm : Firm) : Bool :=
  match number with
  | none => false
  | some s => !s.isEmpty && !strContains (pyLower s) "invalid"

/-- `filter_cell_phone_numbers` (helper.py): keep the numbers the
per-firm predicate accepts, in order. -/
def filter_cell_phone_numbers (phone_numbers : List (Option String))
    (firm : Firm) : List (Option String) :=
  phone_numbers.filter (fun n => parse_cell_phone_number n firm)

/-- Result of `process_phone_numbers` (services.py). -/
structure PhoneResult where
  filtered_numbers : List (Option String)
  primary_number : Option String
  display_string : String
  deriving Repr, DecidableEq

/-- `process_phone_numbers` (services.py). The caller has already turned
a missing/None list into `[]` (`extract_client_data` does the same), so
the defensive `None` check needs no separate case here. -/
def process_phone_numbers (phone_numbers : List (Option String))
    (firm : Firm) : PhoneResult :=
  let filtered := filter_cell_phone_numbers phone_numbers firm
  { filtered_numbers := filtered
    primary_number := (filtered.head?).getD none
    display_string := String.intercalate ", " (phone_numbers.filterMap id) }

/-- `derive_names` (services.py). -/
def derive_names (client_name first_name last_name : Option String) :
    Option String × Option String :=
  if truthy first_name && truthy last_name then
    (first_name, last_name)
  else if truthy client_name && (!truthy first_name || !truthy last_name) then
    let split_name := pySplitSpace (client_name.getD "")
    let derived_first := split_name.headD ""
    let derived_last :=
      if split_name.length > 1 then some (String.intercalate " " split_name.tail)
      else none
    (pyOr first_name (some derived_first), pyOr last_name derived_last)
  else
    (first_name, last_name)

/-- The dict built by `extract_client_data` (services.py). -/
structure ClientData where
  first_name : Option String
  last_name : Option String
  client_name : Option String
  email : Option String
  phone_numbers : List (Option String)
  client_type : Option String
  company_name : Option String
  birth_date : Option String
  ssn : Option String
  deriving Repr, DecidableEq

/-- `extract_client_data` (services.py). -/
def extract_client_data (fn : FieldNames) : ClientData :=
  { first_name := fn.first_name
    last_name := fn.last_name
    client_name := fn.name
    email := fn.email
    phone_numbers := fn.phone_numbers
    client_type := fn.client_type
    company_name := if fn.client_type == some "Company" then fn.first_name else none
    birth_date := fn.birth_date
    ssn := fn.ssn }

/-- Result of `validate_client_input` (services.py). -/
structure ValidationResult where
  is_valid : Bool
  error_message : Option String
  error_fields : Option (List String)
  deriving Repr, DecidableEq

/-- `validate_client_input` (services.py): name rules by integration
type, then the non-corporate phone-required rule. -/
def validate_client_input (client_data : ClientData) (firm : Firm)
    (integration_type : Option String)
    (filtered_cell_phone_numbers : List (Option String)) : ValidationResult :=
  let first_name := client_data.first_name
  let last_name := client_data.last_name
  let nameCheck : Option ValidationResult :=
    if integration_type == some CSV_IMPORT || integration_type == some THIRD_PARTY then
      let missing_fields :=
        (if !truthy first_name then ["client_first_name"] else []) ++
        (if !truthy last_name then ["client_last_name"] else [])
      if missing_fields.isEmpty then none
      else some { is_valid := false,
                  error_message := some CLIENT_MISSING_NAME,
                  error_fields := some missing_fields }
    else
      if !truthy first_name then
        some { is_valid := false,
               error_message := some CLIENT_MISSING_NAME,
               error_fields := some ["client_first_name"] }
      else none
  match nameCheck with
  | some r => r
  | none =>
    if !firm.is_corporate && filtered_cell_phone_numbers.isEmpty then
      let phone_numbers := client_data.phone_numbers
      let cell_phone_display :=
        if phone_numbers.isEmpty then "<None>"
        else String.intercalate ", " (phone_numbers.filterMap id)
      { is_valid := false,
        error_message := some (CELL_PHONE_INVALID_fmt cell_phone_display),
        error_fields := some ["client_cell_phone"] }
    else
      { is_valid := true, error_message := none, error_fields := none }

/-- One repository invocation performed by `find_existing_client`,
recorded for the priority-cascade analysis: which lookup strategies
actually ran, in order. -/
inductive LookupEvent where
  | byIntegrationId (iid : Option String)
  | byEmail (email : Option String)
  | byPhone (phone : Option String)
  | orphanByPhone (phone : Option String)
  deriving Repr, DecidableEq

/-- The dict returned by `find_existing_client` (services.py). -/
structure MatchResult where
  client : Option Client := none
  orphaned_user : Option Unit := none
  matched_phone : Option String := none
  deriving Repr, DecidableEq

/-- Strategy 3 of `find_existing_client`: the `for phone_number in
filtered_cell_phone_numbers` loop, returning on the first client hit
together with the matched number, plus the lookups performed. -/
def phoneLookupLoop (st : Store) (firm_id : Nat) :
    List (Option String) → Option (Client × Option String) × List LookupEvent
  | [] => (none, [])
  | p :: rest =>
    match find_by_phone_number_firm st p firm_id with
    | some c => (some (c, p), [LookupEvent.byPhone p])
    | none =>
      let r := phoneLookupLoop st firm_id rest
      (r.1, LookupEvent.byPhone p :: r.2)

/-- Strategy 4 of `find_existing_client`: the orphaned-user loop
(`break` on first hit), plus the lookups performed. -/
def orphanLookupLoop (st : Store) (fn ln email : Option String) :
    List (Option String) → Option Unit × List LookupEvent
  | [] => (none, [])
  | p :: rest =>
    match identify_orphaned_user_by_phone_number st p fn ln email with
    | some u => (some u, [LookupEvent.orphanByPhone p])
    | none =>
      let r := orphanLookupLoop st fn ln email rest
      (r.1, LookupEvent.orphanByPhone p :: r.2)

/-- `find_existing_client` (services.py): the four lookup strategies in
priority order, stopping at the first success. The second component is
the ordered trace of repository invocations actually performed. -/
def find_existing_client (st : Store) (firm : Firm)
    (integration_id client_email_address : Option String)
    (filtered_cell_phone_numbers : List (Option String))
    (first_name last_name : Option String) :
    MatchResult × List LookupEvent :=
  let step1 : Option MatchResult × List LookupEvent :=
    if truthy integration_id then
      match find_by_integration_id st firm.id integration_id with
      | some c => (some { client := some c }, [LookupEvent.byIntegrationId integration_id])
      | none => (none, [LookupEvent.byIntegrationId integration_id])
    else (none, [])
  match step1 with
  | (some r, evs) => (r, evs)
  | (none, evs1) =>
    let step2 : Option MatchResult × List LookupEvent :=
      if firm.is_corporate && truthy client_email_address then
        match find_by_email_address st client_email_address firm.id with
        | some c => (some { client := some c }, [LookupEvent.byEmail client_email_address])
        | none => (none, [LookupEvent.byEmail client_email_address])
      else (none, [])
    match step2 with
    | (some r, evs2) => (r, evs1 ++ evs2)
    | (none, evs2) =>
      match phoneLookupLoop st firm.id filtered_cell_phone_numbers with
      | (some cp, evs3) =>
        ({ client := some cp.1, matched_phone := cp.2 }, evs1 ++ evs2 ++ evs3)
      | (none, evs3) =>
        let orph := orphanLookupLoop st first_name last_name client_email_address
          filtered_cell_phone_numbers
        ({ orphaned_user := orph.1 }, evs1 ++ evs2 ++ evs3 ++ orph.2)

/-- The `results` dict of `import_client_handler`. `company_name` is
`none` when the key is absent, `some v` when present with value `v`
(which is itself `None` for explicit Person-type records). -/
structure ImportResults where
  created_client : Bool := false
  updated_client : Bool := false
  row : Row := {}
  company_name : Option (Option String) := none
  client : Option Client := none
  deriving Repr, DecidableEq

/-- The `client_data_to_update` dict: `some v` means the key is present
with the (never-`None`) value `v`. -/
structure Patch where
  first_name : Option String := none
  last_name : Option String := none
  email : Option String := none
  cell_phone : Option String := none
  birth_date : Option String := none
  ssn : Option String := none
  integration_id : Option String := none
  deriving Repr, DecidableEq

/-- Emptiness of the `client_data_to_update` dict. -/
def Patch.isEmpty (p : Patch) : Bool :=
  p.first_name.isNone && p.last_name.isNone && p.email.isNone &&
  p.cell_phone.isNone && p.birth_date.isNone && p.ssn.isNone &&
  p.integration_id.isNone

/-- services.py lines 402-411: copy every present, non-`None` value of
`CLIENT_CONTACT_INFO_FIELD_NAMES` from `field_names` into the patch,
then delete a falsy `cell_phone` entry (null-protection). -/
def buildContactPatch (fn : FieldNames) : Patch :=
  let p : Patch := { first_name := fn.first_name, last_name := fn.last_name,
                     email := fn.email, cell_phone := fn.cell_phone }
  if p.cell_phone.isSome && !truthy p.cell_phone then
    { p with cell_phone := none }
  else p

/-- services.py lines 414-419: for `birth_date`, `ssn`, `integration_id`,
copy a present, non-`None` incoming value only when the stored attribute
is falsy (missing). -/
def buildMissingDataPatch (p0 : Patch) (fn : FieldNames) (c : Client) : Patch :=
  let p1 := if fn.birth_date.isSome && !truthy c.birth_date then
    { p0 with birth_date := fn.birth_date } else p0
  let p2 := if fn.ssn.isSome && !truthy c.ssn then
    { p1 with ssn := fn.ssn } else p1
  if fn.integration_id.isSome && !truthy c.integration_id then
    { p2 with integration_id := fn.integration_id } else p2

/-- services.py lines 422-423: encrypt the SSN entry of the patch when
present (`encrypt_ssn` is the identity in the source). -/
def encryptPatchSsn (p : Patch) : Patch :=
  match p.ssn with
  | some v => { p with ssn := some (encrypt_ssn v) }
  | none => p

/-- The `for field, value in client_data_to_update.items()` loop of
`_update_client` (helper.py): every present entry is set on the client
(the modelled fields always exist, and patch values are never `None`),
and `updated` becomes true as soon as any entry is applied. Fields in
dict insertion order. -/
def applyPatch (c0 : Client) (p : Patch) : Client × Bool :=
  let r1 : Client × Bool := match p.first_name with
    | some v => ({ c0 with first_name := some v }, true)
    | none => (c0, false)
  let r2 : Client × Bool := match p.last_name with
    | some v => ({ r1.1 with last_name := some v }, true)
    | none => r1
  let r3 : Client × Bool := match p.email with
    | some v => ({ r2.1 with email := some v }, true)
    | none => r2
  let r4 : Client × Bool := match p.cell_phone with
    | some v => ({ r3.1 with cell_phone := some v }, true)
    | none => r3
  let r5 : Client × Bool := match p.birth_date with
    | some v => ({ r4.1 with birth_date := some v }, true)
    | none => r4
  let r6 : Client × Bool := match p.ssn with
    | some v => ({ r5.1 with ssn := some v }, true)
    | none => r5
  match p.integration_id with
  | some v => ({ r6.1 with integration_id := some v }, true)
  | none => r6

/-- `_update_client` (helper.py): apply the patch to the instance, then
`session.commit()` when anything was applied. The commit is not wrapped
in any try/except, so a scripted failure propagates as an exception.
A successful commit makes the store row reflect the in-place mutations
of the persistent instance (`replaceFirst`); committing a transient
instance (one not in the store) persists nothing. -/
def update_client (st : Store) (orig : Client) (p : Patch) :
    Except String (Client × Bool × Store) :=
  let a := applyPatch orig p
  if a.2 then
    let f := popFailure st
    match f.1 with
    | some msg => Except.error msg
    | none =>
      Except.ok (a.1, true, { f.2 with clients := replaceFirst f.2.clients orig a.1 })
  else
    Except.ok (a.1, false, st)

/-- `ClientRepository.save` on the create path (inside the handler's
try/except): add + commit of a new instance. A scripted failure is
returned as a message (to be caught by the handler); on success the
client is inserted. -/
def repoSaveNew (st : Store) (c : Client) : Option String × Store :=
  let f := popFailure st
  match f.1 with
  | some msg => (some msg, f.2)
  | none => (none, { f.2 with clients := f.2.clients ++ [c] })

/-- `ClientRepository.save` on the update path (services.py line 434),
outside any try/except: add + commit of the handler's current
`client_instance`. A persistent instance is updated in place, a
transient one inserted; a scripted failure propagates. -/
def repoSaveExisting (st : Store) (c : Client) : Except String Store :=
  let f := popFailure st
  match f.1 with
  | some msg => Except.error msg
  | none => Except.ok { f.2 with clients := upsertClient f.2.clients c c }

/-- services.py lines 337-390: the client-creation block. Returns the
handler's `client_instance` binding after the block (note that on a save
failure the freshly constructed, unsaved instance stays bound), the
`created_client` flag, the row (with `error_message` on failure), and
the store. The try/except catches the save failure, classifies known
uniqueness messages, and rolls back. -/
def client_create_phase (st : Store) (firm : Firm) (row : Row)
    (client_data : ClientData)
    (first_name last_name client_email_address : Option String)
    (integration_id primary_number : Option String)
    (orphaned_user : Option Unit) (client_instance0 : Option Client)
    (create_new_client validation : Bool) :
    Option Client × Bool × Row × Store :=
  if client_instance0.isNone && create_new_client then
    let email_address : Option String :=
      if orphaned_user.isSome then none
      else
        match user_find_by_email_address st client_email_address with
        | some _ => none
        | none => client_email_address
    let new_client : Client :=
      { firm_id := firm.id
        first_name := first_name
        last_name := last_name
        email := email_address
        integration_id := integration_id
        cell_phone := primary_number
        birth_date := if truthy client_data.birth_date then client_data.birth_date else none
        ssn := if truthy client_data.ssn then some (encrypt_ssn (client_data.ssn.getD ""))
               else none }
    if validation then
      (some new_client, true, row, st)
    else
      match repoSaveNew st new_client with
      | (none, st1) => (some new_client, true, row, st1)
      | (some msg, st1) =>
        -- session.rollback(): the failed insert left no row behind.
        let expected :=
          strContains msg "uq_sub_users_type_firm_id_user_id" ||
          strContains msg "The email or phone number you entered is already in use"
        let err := if expected then USER_ALREADY_EXISTS_fmt client_email_address primary_number
                   else msg
        (some new_client, false, { row with error_message := some err }, st1)
  else
    (client_instance0, false, row, st)

/-- The `client_data_to_update` dict as assembled by services.py lines
398-423: the contact-info entries when `sync_client_contact_info` is
enabled, then the missing-data entries when `update_client_missing_data`
is enabled, then SSN encryption. -/
def updatePatch (firm : Firm) (fn : FieldNames) (c : Client) : Patch :=
  let p0 : Patch := if firm.sync_client_contact_info then buildContactPatch fn else {}
  let p1 : Patch := if firm.update_client_missing_data then buildMissingDataPatch p0 fn c else p0
  encryptPatchSsn p1

/-- services.py lines 392-442: the client-update block plus the final
`results["client"]` / `results["row"]` assignments. When an instance is
bound and either integration setting is enabled, build the patch, run
`_update_client` when the patch is non-empty (its commit can raise,
uncaught), and finally `ClientRepository.save` outside validation mode
(which can also raise, uncaught). -/
def client_update_phase (st : Store) (firm : Firm) (row : Row)
    (results : ImportResults) (client_instance : Option Client)
    (fn : FieldNames) (validation : Bool) :
    Except String (ImportResults × Row × Store) :=
  match client_instance with
  | none =>
    Except.ok ({ results with row := row }, row, st)
  | some c0 =>
    let should_sync := firm.sync_client_contact_info
    let should_update := firm.update_client_missing_data
    if should_sync || should_update then
      let p2 : Patch := updatePatch firm fn c0
      let afterUpdate : Except String (Client × Bool × Row × Store) :=
        if !p2.isEmpty then
          match update_client st c0 p2 with
          | Except.error msg => Except.error msg
          | Except.ok (c1, updated, st1) =>
            if updated then
              Except.ok (c1, true, { row with success_msg := some CLIENT_UPDATED }, st1)
            else
              Except.ok (c1, false, row, st1)
        else
          Except.ok (c0, false, row, st)
      match afterUpdate with
      | Except.error msg => Except.error msg
      | Except.ok (c1, updatedFlag, row1, st1) =>
        let finalSave : Except String Store :=
          if !validation then repoSaveExisting st1 c1 else Except.ok st1
        match finalSave with
        | Except.error msg => Except.error msg
        | Except.ok st2 =>
          Except.ok
            ({ results with
                updated_client := results.updated_client || updatedFlag
                client := some c1
                row := row1 },
             row1, st2)
    else
      Except.ok ({ results with client := some c0, row := row }, row, st)

/-- `ImportCaseHelper.import_client_handler` (services.py): the
reconciliation entry point. Returns the `results` dict, the (mutated)
`field_names` dict, the (mutated) `row` dict and the final store on
normal return, or `Except.error msg` when an exception escapes the
handler. `log_integration_response` is a no-op stub in the source and
has no observable effect, so the `matter_id` / response-object
parameters are not modelled. -/
def import_client_handler (st : Store) (firm : Firm) (row : Row)
    (field_names : FieldNames)
    (integration_type : Option String := none)
    (integration_id : Option String := none)
    (create_new_client : Bool := true) (validation : Bool := false) :
    Except String (ImportResults × FieldNames × Row × Store) :=
  let results0 : ImportResults := {}
  let client_data := extract_client_data field_names
  let phone_result := process_phone_numbers client_data.phone_numbers firm
  let filtered := phone_result.filtered_numbers
  let primary_number := phone_result.primary_number
  let dn := derive_names client_data.client_name client_data.first_name client_data.last_name
  let derived_first := dn.1
  let derived_last := dn.2
  let field_names1 :=
    if truthy derived_first && !truthy field_names.first_name then
      { field_names with first_name := derived_first }
    else field_names
  let field_names2 :=
    if truthy derived_last && !truthy field_names1.last_name then
      { field_names1 with last_name := derived_last }
    else field_names1
  let first_name := derived_first
  let last_name := derived_last
  let client_email_address := client_data.email
  let row1 : Row :=
    { row with
        email := client_email_address
        first_name := first_name
        last_name := last_name
        cell_phone := some phone_result.display_string }
  let results1 :=
    if truthy client_data.company_name then
      { results0 with company_name := some client_data.company_name }
    else if client_data.client_type != some "Company" then
      { results0 with company_name := some none }
    else results0
  let lookup := find_existing_client st firm integration_id client_email_address
    filtered first_name last_name
  let mr := lookup.1
  let client_instance0 := mr.client
  let orphaned_user := mr.orphaned_user
  let row2 := if truthy mr.matched_phone then { row1 with cell_phone := mr.matched_phone }
              else row1
  let earlyErrorRow : Option Row :=
    if client_instance0.isNone && orphaned_user.isNone then
      let client_data1 := { client_data with first_name := first_name, last_name := last_name }
      let vr := validate_client_input client_data1 firm integration_type filtered
      if !vr.is_valid then
        some { row2 with error_fields := vr.error_fields, error_message := vr.error_message }
      else if !create_new_client then
        some { row2 with error_message := some CLIENT_NOT_FOUND_STOP_ZAP }
      else none
    else none
  match earlyErrorRow with
  | some row3 => Except.ok ({ results1 with row := row3 }, field_names2, row3, st)
  | none =>
    let cp := client_create_phase st firm row2 client_data first_name last_name
      client_email_address integration_id primary_number orphaned_user client_instance0
      create_new_client validation
    let client_instance1 := cp.1
    let created := cp.2.1
    let row3 := cp.2.2.1
    let st1 := cp.2.2.2
    let results2 := { results1 with created_client := created }
    match client_update_phase st1 firm row3 results2 client_instance1 field_names2 validation with
    | Except.error msg => Except.error msg
    | Except.ok (results3, row4, st2) =>
      Except.ok (results3, field_names2, row4, st2)

/-! ### Concrete fixtures used by the claim theorems -/

/-- Projection: the `results` dict of a normal handler return. -/
def outcomeOf (e : Except String (ImportResults × FieldNames × Row × Store)) :
    Option ImportResults :=
  match e with
  | Except.ok r => some r.1
  | Except.error _ => none

/-- Projection: the message of an exception escaping the handler. -/
def errorOf (e : Except String (ImportResults × FieldNames × Row × Store)) :
    Option String :=
  match e with
  | Except.ok _ => none
  | Except.error msg => some msg

/-- Projection: the store after a normal handler return. -/
def storeOf (e : Except String (ImportResults × FieldNames × Row × Store)) :
    Option Store :=
  match e with
  | Except.ok r => some r.2.2.2
  | Except.error _ => none

/-- A non-corporate firm with both integration settings disabled. -/
def firmBare : Firm := { id := 1, is_corporate := false }

/-- A non-corporate firm with `sync_client_contact_info` enabled. -/
def firmSyncOnly : Firm :=
  { id := 1, is_corporate := false, sync_client_contact_info := true }

/-- A non-corporate firm with `update_client_missing_data` enabled. -/
def firmMissingOnly : Firm :=
  { id := 1, is_corporate := false, update_client_missing_data := true }

/-- The spec's concrete creation scenario input. -/
def janeRecord : FieldNames :=
  { first_name := some "Jane"
    last_name := some "Smith"
    email := some "jane@x.com"
    phone_numbers := [some "555-0100"] }

/-- A stored client whose integration id is "id1" under firm 1. -/
def johnClient : Client :=
  { firm_id := 1
    first_name := some "John"
    last_name := some "Doe"
    email := some "j@x.com"
    cell_phone := some "555-0199"
    integration_id := some "id1" }

/-- A stored client with a non-empty birth date, integration id "csv-1". -/
def bdClient : Client :=
  { firm_id := 1
    first_name := some "Jane"
    last_name := some "Smith"
    birth_date := some "1980-01-01"
    integration_id := some "csv-1" }

/-- An incoming record whose birth date differs from `bdClient`'s. -/
def bdRecord : FieldNames :=
  { first_name := some "Jane"
    last_name := some "Smith"
    birth_date := some "1990-12-25"
    phone_numbers := [some "1111111111"] }

/-- The spec's CSV "Madonna" record: combined name only. -/
def madonnaRecord : FieldNames := { name := some "Madonna" }

/-- An incoming record whose `cell_phone` value fails the phone filter's
validation predicate (it contains "invalid"). -/
def invalidCellRecord : FieldNames :=
  { first_name := some "Jane", cell_phone := some "invalid999" }

/-! ### C1 -/

/-- C1: counter-evidence for the exactly-one-outcome invariant. On a
plain successful creation with `sync_client_contact_info` enabled (no
error anywhere), the handler reports `created_client = true` and
`updated_client = true` simultaneously: after the create block binds the
new instance, the update block runs on it as well. -/
theorem C1_successful_create_reports_created_and_updated :
    (outcomeOf (import_client_handler {} firmSyncOnly {} janeRecord none
        (some "id1") true false)).map
      (fun r => (r.created_client, r.updated_client, r.row.error_message)) =
      some (true, true, none) := by
  decide

/-! ### C2 -/

/-- C2: a persistence failure on the update path is NOT caught. With a
stored client matched by integration id, `sync_client_contact_info`
enabled, and the store scripted to fail the next commit (message
"boom"), the exception raised inside `_update_client`'s `session.commit`
propagates out of `import_client_handler` instead of being translated
into the outcome's error field. -/
theorem C2_update_path_persistence_failure_propagates :
    errorOf (import_client_handler { clients := [johnClient], failures := [some "boom"] }
      firmSyncOnly {} janeRecord none (some "id1") false false) =
      some "boom" := by
  decide

/-! ### C5 -/

/-- C5: with `update_client_missing_data` enabled and integration type
CSV-import, an incoming birth date ("1990-12-25") that differs from the
stored one ("1980-01-01") is NOT written: the code fills `birth_date`
only when the stored value is empty, for every source type, so the
stored value survives and no update is reported. The repository's own
test (`test_integration_specific_birth_date_update_rules`) expects the
patch to contain the new birth date on this input. -/
theorem C5_csv_differing_birth_date_not_overwritten :
    (outcomeOf (import_client_handler { clients := [bdClient] } firmMissingOnly {}
        bdRecord (some CSV_IMPORT) (some "csv-1") false false)).map
      (fun r => (r.updated_client, r.client.map Client.birth_date)) =
      some (false, some (some "1980-01-01")) := by
  decide

/-! ### C10 -/

/-- C10: on the update path with `sync_client_contact_info` enabled, the
patch takes `cell_phone` from the raw input map, without the per-firm
validation predicate used by the phone filter: the value "invalid999",
which `parse_cell_phone_number` rejects, is written to the stored
client's cell phone. -/
theorem C10_unvalidated_cell_phone_written_on_update :
    (outcomeOf (import_client_handler { clients := [johnClient] } firmSyncOnly {}
        invalidCellRecord none (some "id1") false false)).map
      (fun r => (r.updated_client, r.client.map Client.cell_phone)) =
        some (true, some (some "invalid999")) ∧
    parse_cell_phone_number (some "invalid999") firmSyncOnly = false := by
  exact ⟨by decide, by decide⟩

/-! ### C3 -/

/-- C3: for every exception message `msg` raised by the create-path
save, the handler records the error, but the freshly constructed
(unsaved) instance stays bound, so the update path runs on it: with
`sync_client_contact_info` enabled and not in dry-run mode the result
carries an error message AND `updated_client = true` (with
`created_client = false`), and the second, update-path save inserts the
instance after all (the final store holds one client). -/
theorem C3_failed_create_save_enters_update_path (msg : String) :
    (outcomeOf (import_client_handler { clients := [], failures := [some msg] }
        firmSyncOnly {} janeRecord none (some "id1") true false)).map
      (fun r => (r.created_client, r.updated_client, r.row.error_message.isSome,
                 r.row.success_msg)) = some (false, true, true, some CLIENT_UPDATED) ∧
    (storeOf (import_client_handler { clients := [], failures := [some msg] }
        firmSyncOnly {} janeRecord none (some "id1") true false)).map
      (fun st => st.clients.length) = some 1 :=
  ⟨rfl, rfl⟩

/-! ### C4 -/

/-- The store after a first reconciliation of `janeRecord` against the
stored `johnClient` with `sync_client_contact_info` enabled: the
client's contact fields now match the incoming record exactly. -/
def storeAfterFirstJaneRun : Store :=
  (storeOf (import_client_handler { clients := [johnClient] } firmSyncOnly {}
    janeRecord none (some "id1") false false)).getD {}

/-- C4: counterexample to update idempotence as claimed. Reconciling
`janeRecord` a second time against the store produced by the first run
(every field already matches: the store is a fixed point of the second
run) still reports `updated_client = true`, not "no update occurred". -/
theorem C4_second_identical_update_still_reports_updated :
    (outcomeOf (import_client_handler storeAfterFirstJaneRun firmSyncOnly {}
        janeRecord none (some "id1") false false)).map
      (fun r => r.updated_client) = some true ∧
    storeOf (import_client_handler storeAfterFirstJaneRun firmSyncOnly {}
        janeRecord none (some "id1") false false) = some storeAfterFirstJaneRun := by
  exact ⟨by decide, by decide⟩

/-! ### C7 -/

/-- C7: counterexample to "rejects with the phone-required error
regardless of name validity". For a non-corporate firm, an empty phone
list and a previously-unseen integration id, a CSV record missing its
last name is rejected with the missing-name error, not the
phone-required one: the name check fires first. -/
theorem C7_name_check_fires_before_phone_check :
    (outcomeOf (import_client_handler {} firmBare {} madonnaRecord (some CSV_IMPORT)
        (some "new-1") true false)).map
      (fun r => (r.row.error_message, r.row.error_fields)) =
      some (some CLIENT_MISSING_NAME, some ["client_last_name"]) := by
  decide

/-! ### C9 -/

/-- C9: name-derivation precedence. (1) When both explicit names are
supplied (truthy), they are returned verbatim and the combined-name
field is never consulted (the result does not depend on it). (2)-(3) An
explicitly supplied first or last name is never replaced, whatever the
combined name holds. (4)-(5) When a combined name is present and first
(resp. last) is missing, the missing slot gets the first split token
(resp. the remaining tokens rejoined with single spaces, or None when
there is only one token). -/
theorem C9_derive_names_precedence :
    (∀ client_name first_name last_name,
       truthy first_name = true → truthy last_name = true →
       derive_names client_name first_name last_name = (first_name, last_name)) ∧
    (∀ client_name first_name last_name,
       truthy first_name = true →
       (derive_names client_name first_name last_name).1 = first_name) ∧
    (∀ client_name first_name last_name,
       truthy last_name = true →
       (derive_names client_name first_name last_name).2 = last_name) ∧
    (∀ client_name first_name last_name,
       truthy client_name = true → truthy first_name = false →
       (derive_names client_name first_name last_name).1 =
         some ((pySplitSpace (client_name.getD "")).headD "")) ∧
    (∀ client_name first_name last_name,
       truthy client_name = true → truthy last_name = false →
       (derive_names client_name first_name last_name).2 =
         (if (pySplitSpace (client_name.getD "")).length > 1 then
            some (String.intercalate " " (pySplitSpace (client_name.getD "")).tail)
          else none)) := by
  refine ⟨?_, ?_, ?_, ?_, ?_⟩
  · intro cn f l hf hl
    simp [derive_names, hf, hl]
  · intro cn f l hf
    by_cases hl : truthy l
    · simp [derive_names, hf, hl]
    · by_cases hc : truthy cn
      · simp [derive_names, hf, hl, hc, pyOr]
      · simp [derive_names, hf, hl, hc]
  · intro cn f l hl
    by_cases hf : truthy f
    · simp [derive_names, hf, hl]
    · by_cases hc : truthy cn
      · simp [derive_names, hf, hl, hc, pyOr]
      · simp [derive_names, hf, hl, hc]
  · intro cn f l hc hf
    simp [derive_names, hf, hc, pyOr]
  · intro cn f l hc hl
    by_cases hf : truthy f
    · simp [derive_names, hf, hl, hc, pyOr]
    · simp [derive_names, hf, hl, hc, pyOr]

/-- C9 witness: the precedence theorem evaluated at concrete inputs —
explicit "A"/"B" beat the combined "Mary Jane Watson", and a fully
missing pair is derived as "Mary" / "Jane Watson". -/
theorem C9_derive_names_precedence_witness :
    derive_names (some "Mary Jane Watson") (some "A") (some "B") = (some "A", some "B") ∧
    (derive_names (some "Mary Jane Watson") none none).1 = some "Mary" ∧
    (derive_names (some "Mary Jane Watson") none none).2 = some "Jane Watson" := by
  refine ⟨C9_derive_names_precedence.1 _ _ _ (by decide) (by decide), ?_, ?_⟩
  · exact (C9_derive_names_precedence.2.2.2.1 (some "Mary Jane Watson") none none
      (by decide) (by decide)).trans (by decide)
  · exact (C9_derive_names_precedence.2.2.2.2 (some "Mary Jane Watson") none none
      (by decide) (by decide)).trans (by decide)

/-! ### C8 -/

/-- Every repository call of the strategy-3 loop is a phone lookup. -/
lemma phoneLookupLoop_events (st : Store) (fid : Nat) (l : List (Option String)) :
    ∀ e ∈ (phoneLookupLoop st fid l).2, ∃ p, e = LookupEvent.byPhone p := by
  induction l with
  | nil => simp [phoneLookupLoop]
  | cons p rest ih =>
    intro e he
    rw [phoneLookupLoop] at he
    cases h : find_by_phone_number_firm st p fid with
    | some c =>
      rw [h] at he
      simp at he
      exact ⟨p, he⟩
    | none =>
      rw [h] at he
      simp at he
      rcases he with he | he
      · exact ⟨p, he⟩
      · exact ih e he

/-- The orphan lookup is a stub, so the strategy-4 loop finds nothing
and performs one orphan lookup per number. -/
lemma orphanLookupLoop_eq (st : Store) (fn ln em : Option String)
    (l : List (Option String)) :
    orphanLookupLoop st fn ln em l = (none, l.map LookupEvent.orphanByPhone) := by
  induction l with
  | nil => simp [orphanLookupLoop]
  | cons p rest ih => simp [orphanLookupLoop, identify_orphaned_user_by_phone_number, ih]

/-- The strategy-3 loop returns the first list entry whose lookup hits,
together with that entry's client. -/
lemma phoneLookupLoop_eq_find (st : Store) (fid : Nat) (l : List (Option String)) :
    (phoneLookupLoop st fid l).1 =
      (l.find? (fun p => (find_by_phone_number_firm st p fid).isSome)).bind
        (fun p => (find_by_phone_number_firm st p fid).map (fun c => (c, p))) := by
  induction l with
  | nil => simp [phoneLookupLoop]
  | cons p rest ih =>
    cases h : find_by_phone_number_firm st p fid with
    | some c =>
      rw [phoneLookupLoop, h]
      rw [List.find?_cons_of_pos _ (by simp [h])]
      simp [h]
    | none =>
      rw [phoneLookupLoop, h]
      rw [List.find?_cons_of_neg _ (by simp [h])]
      simpa using ih

/-- When the strategy-2 guard (corporate firm with an email) is false,
the matcher's trace holds no email lookup at all. -/
lemma find_existing_client_no_email_event (st : Store) (firm : Firm)
    (iid email : Option String) (phones : List (Option String))
    (fn ln e : Option String)
    (hguard : (firm.is_corporate && truthy email) = false) :
    LookupEvent.byEmail e ∉ (find_existing_client st firm iid email phones fn ln).2 := by
  rw [find_existing_client]
  by_cases hiid : truthy iid = true
  · cases hfind : find_by_integration_id st firm.id iid with
    | some c =>
      simp only [hiid, hfind, if_true]
      simp
    | none =>
      simp only [hiid, hfind, if_true, hguard, Bool.false_eq_true, if_false]
      cases hloop : phoneLookupLoop st firm.id phones with
      | mk r evs =>
        cases r with
        | some cp =>
          simp only [hloop]
          intro he
          simp only [List.mem_append, List.mem_singleton, List.nil_append] at he
          rcases he with he | he
          · exact absurd he (by simp)
          · rcases phoneLookupLoop_events st firm.id phones _
              (by rw [hloop]; exact he) with ⟨p, hp⟩
            exact absurd hp (by simp)
        | none =>
          simp only [hloop, orphanLookupLoop_eq]
          intro he
          simp only [List.mem_append, List.mem_singleton, List.mem_map,
            List.nil_append] at he
          rcases he with (he | he) | ⟨p, _, hp⟩
          · exact absurd he (by simp)
          · rcases phoneLookupLoop_events st firm.id phones _
              (by rw [hloop]; exact he) with ⟨p, hp⟩
            exact absurd hp (by simp)
          · exact absurd hp.symm (by simp)
  · have hiid' : truthy iid = false := by
      cases h : truthy iid
      · rfl
      · exact absurd h hiid
    simp only [hiid', Bool.false_eq_true, if_false, hguard]
    cases hloop : phoneLookupLoop st firm.id phones with
    | mk r evs =>
      cases r with
      | some cp =>
        simp only [hloop]
        intro he
        simp only [List.nil_append, List.mem_append] at he
        rcases phoneLookupLoop_events st firm.id phones _
          (by rw [hloop]; exact he) with ⟨p, hp⟩
        exact absurd hp (by simp)
      | none =>
        simp only [hloop, orphanLookupLoop_eq]
        intro he
        simp only [List.nil_append, List.mem_append, List.mem_map] at he
        rcases he with he | ⟨p, _, hp⟩
        · rcases phoneLookupLoop_events st firm.id phones _
            (by rw [hloop]; exact he) with ⟨p, hp⟩
          exact absurd hp (by simp)
        · exact absurd hp.symm (by simp)

/-- When strategies 1 and 2 both miss, the matcher's result is exactly
the phone-loop outcome. -/
lemma find_existing_client_phone_result (st : Store) (firm : Firm)
    (iid email : Option String) (phones : List (Option String)) (fn ln : Option String)
    (h1 : truthy iid = true → find_by_integration_id st firm.id iid = none)
    (h2 : firm.is_corporate = true → truthy email = true →
      find_by_email_address st email firm.id = none) :
    (find_existing_client st firm iid email phones fn ln).1 =
      (match (phoneLookupLoop st firm.id phones).1 with
       | some cp => { client := some cp.1, orphaned_user := none, matched_phone := cp.2 }
       | none => { client := none, orphaned_user := none, matched_phone := none }) := by
  rw [find_existing_client]
  have hg : ∀ hguard : (firm.is_corporate && truthy email) = true,
      find_by_email_address st email firm.id = none := by
    intro hguard
    exact h2 ((Bool.and_eq_true _ _).mp hguard).1 ((Bool.and_eq_true _ _).mp hguard).2
  by_cases hiid : truthy iid = true
  all_goals by_cases hguard : (firm.is_corporate && truthy email) = true
  · simp only [hiid, if_true, h1 hiid, hguard, hg hguard]
    cases hloop : phoneLookupLoop st firm.id phones with
    | mk r evs =>
      cases r with
      | some cp => simp [hloop]
      | none => simp [hloop, orphanLookupLoop_eq]
  · have hguard' : (firm.is_corporate && truthy email) = false := by
      cases h : (firm.is_corporate && truthy email)
      · rfl
      · exact absurd h hguard
    simp only [hiid, if_true, h1 hiid, hguard', Bool.false_eq_true, if_false]
    cases hloop : phoneLookupLoop st firm.id phones with
    | mk r evs =>
      cases r with
      | some cp => simp [hloop]
      | none => simp [hloop, orphanLookupLoop_eq]
  · have hiid' : truthy iid = false := by
      cases h : truthy iid
      · rfl
      · exact absurd h hiid
    simp only [hiid', Bool.false_eq_true, if_false, hguard, hg hguard]
    cases hloop : phoneLookupLoop st firm.id phones with
    | mk r evs =>
      cases r with
      | some cp => simp [hloop]
      | none => simp [hloop, orphanLookupLoop_eq]
  · have hiid' : truthy iid = false := by
      cases h : truthy iid
      · rfl
      · exact absurd h hiid
    have hguard' : (firm.is_corporate && truthy email) = false := by
      cases h : (firm.is_corporate && truthy email)
      · rfl
      · exact absurd h hguard
    simp only [hiid', Bool.false_eq_true, if_false, hguard']
    cases hloop : phoneLookupLoop st firm.id phones with
    | mk r evs =>
      cases r with
      | some cp => simp [hloop]
      | none => simp [hloop, orphanLookupLoop_eq]

/-- C8: the matcher's priority cascade. (1) A supplied integration id
that matches a stored client wins outright: the result is that client
and the only repository call recorded is the integration-id lookup —
in particular the email lookup is never invoked, whatever the email
tables hold. (2) An email lookup appears in the trace only when the
firm is corporate and an email was supplied. (3) When strategies 1 and
2 miss, the phone strategy scans the filtered list in order: the result
is the client of the first number whose lookup hits, and that number is
recorded as the matched phone. -/
theorem C8_matcher_priority_cascade :
    (∀ st firm iid email phones fn ln c,
       truthy iid = true →
       find_by_integration_id st firm.id iid = some c →
       find_existing_client st firm iid email phones fn ln =
         ({ client := some c, orphaned_user := none, matched_phone := none },
          [LookupEvent.byIntegrationId iid])) ∧
    (∀ st firm iid email phones fn ln e,
       LookupEvent.byEmail e ∈ (find_existing_client st firm iid email phones fn ln).2 →
       firm.is_corporate = true ∧ truthy email = true) ∧
    (∀ st firm iid email phones fn ln,
       (truthy iid = true → find_by_integration_id st firm.id iid = none) →
       (firm.is_corporate = true → truthy email = true →
         find_by_email_address st email firm.id = none) →
       (find_existing_client st firm iid email phones fn ln).1.client =
          (phones.find? (fun p => (find_by_phone_number_firm st p firm.id).isSome)).bind
            (fun p => find_by_phone_number_firm st p firm.id) ∧
       (find_existing_client st firm iid email phones fn ln).1.matched_phone =
          (phones.find? (fun p => (find_by_phone_number_firm st p firm.id).isSome)).getD
            none) := by
  refine ⟨?_, ?_, ?_⟩
  · intro st firm iid email phones fn ln c hiid hfind
    simp [find_existing_client, hiid, hfind]
  · intro st firm iid email phones fn ln e he
    by_cases hguard : (firm.is_corporate && truthy email) = true
    · exact ⟨((Bool.and_eq_true _ _).mp hguard).1, ((Bool.and_eq_true _ _).mp hguard).2⟩
    · have hguard' : (firm.is_corporate && truthy email) = false := by
        cases h : (firm.is_corporate && truthy email)
        · rfl
        · exact absurd h hguard
      exact absurd he
        (find_existing_client_no_email_event st firm iid email phones fn ln e hguard')
  · intro st firm iid email phones fn ln h1 h2
    have key := find_existing_client_phone_result st firm iid email phones fn ln h1 h2
    cases hfind : phones.find? (fun p => (find_by_phone_number_firm st p firm.id).isSome) with
    | none =>
      have hloop1 : (phoneLookupLoop st firm.id phones).1 = none := by
        rw [phoneLookupLoop_eq_find, hfind]
        rfl
      rw [hloop1] at key
      simp [key]
    | some p =>
      have hps : (find_by_phone_number_firm st p firm.id).isSome = true := by
        simpa using List.find?_some hfind
      rcases Option.isSome_iff_exists.mp hps with ⟨c, hc⟩
      have hloop1 : (phoneLookupLoop st firm.id phones).1 = some (c, p) := by
        rw [phoneLookupLoop_eq_find, hfind]
        simp [hc]
      rw [hloop1] at key
      simp [key, hc]

/-- A corporate firm used by the matcher witness. -/
def firmCorp : Firm := { id := 1, is_corporate := true }

/-- C8 witness: the cascade theorem evaluated concretely. `johnClient`
is matchable both by integration id "id1" and by its email under the
corporate firm: the integration-id match wins and the trace holds no
email event; the email event occurs when no integration id is supplied;
and with an unseen id the phone strategy returns the stored client for
its number. -/
theorem C8_matcher_priority_cascade_witness :
    find_existing_client { clients := [johnClient] } firmCorp (some "id1")
        (some "j@x.com") [] none none =
      ({ client := some johnClient, orphaned_user := none, matched_phone := none },
       [LookupEvent.byIntegrationId (some "id1")]) ∧
    (firmCorp.is_corporate = true ∧ truthy (some "j@x.com") = true) ∧
    (find_existing_client { clients := [johnClient] } firmCorp (some "zz")
        none [some "555-0199"] none none).1.client = some johnClient := by
  refine ⟨?_, ?_, ?_⟩
  · exact C8_matcher_priority_cascade.1 { clients := [johnClient] } firmCorp
      (some "id1") (some "j@x.com") [] none none johnClient (by decide) (by decide)
  · exact C8_matcher_priority_cascade.2.1 { clients := [johnClient] } firmCorp
      none (some "j@x.com") [] none none (some "j@x.com") (by decide)
  · exact ((C8_matcher_priority_cascade.2.2 { clients := [johnClient] } firmCorp
      (some "zz") none [some "555-0199"] none none
      (by decide) (by decide)).1).trans (by decide)

/-! ### C4 (amended) -/

/-- `applyPatch` reports an update as soon as any entry is present;
in particular a present first name suffices, whatever the stored
values are — no comparison with the stored client is made. -/
lemma applyPatch_updated_of_first_name (c : Client) (p : Patch) (v : String)
    (hv : p.first_name = some v) :
    (applyPatch c p).2 = true := by
  obtain ⟨pf, pl, pe, pc, pb, ps, pi⟩ := p
  simp only at hv
  subst hv
  cases pl <;> cases pe <;> cases pc <;> cases pb <;> cases ps <;> cases pi <;> rfl

/-- The cell-phone null-protection step leaves `first_name` alone. -/
lemma buildContactPatch_first_name (fn : FieldNames) :
    (buildContactPatch fn).first_name = fn.first_name := by
  simp only [buildContactPatch]
  split <;> rfl

/-- The missing-data entries never touch `first_name`. -/
lemma buildMissingDataPatch_first_name (p : Patch) (fn : FieldNames) (c : Client) :
    (buildMissingDataPatch p fn c).first_name = p.first_name := by
  simp only [buildMissingDataPatch]
  split <;> split <;> split <;> rfl

/-- SSN encryption never touches `first_name`. -/
lemma encryptPatchSsn_first_name (p : Patch) :
    (encryptPatchSsn p).first_name = p.first_name := by
  simp only [encryptPatchSsn]
  cases h : p.ssn <;> rfl

/-- With contact sync enabled the patch's first name is the incoming one. -/
lemma updatePatch_first_name_of_sync (firm : Firm) (fn : FieldNames) (c : Client)
    (hsync : firm.sync_client_contact_info = true) :
    (updatePatch firm fn c).first_name = fn.first_name := by
  simp only [updatePatch, hsync, if_true]
  by_cases hu : firm.update_client_missing_data = true
  · simp [hu, encryptPatchSsn_first_name, buildMissingDataPatch_first_name,
      buildContactPatch_first_name]
  · have hu' : firm.update_client_missing_data = false := by
      cases h : firm.update_client_missing_data
      · rfl
      · exact absurd h hu
    simp [hu', encryptPatchSsn_first_name, buildContactPatch_first_name]

/-- A patch holding a first name is non-empty. -/
lemma isEmpty_false_of_first_name (p : Patch) (v : String)
    (hv : p.first_name = some v) :
    p.isEmpty = false := by
  simp [Patch.isEmpty, hv]

/-- Projection: the `updated_client` flag of a normal update-phase
return. -/
def phaseUpdatedFlag (e : Except String (ImportResults × Row × Store)) : Option Bool :=
  match e with
  | Except.ok r => some r.1.updated_client
  | Except.error _ => none

/-- `_update_client` on a patch holding a first name, with the commit
succeeding: it applies the patch and reports an update. -/
lemma update_client_ok (st : Store) (c : Client) (p : Patch) (v : String)
    (hv : p.first_name = some v) (hfail : st.failures = []) :
    update_client st c p =
      Except.ok ((applyPatch c p).1, true,
        { clients := replaceFirst st.clients c (applyPatch c p).1,
          failures := st.failures }) := by
  have happly := applyPatch_updated_of_first_name c p v hv
  simp only [update_client, happly, if_true, popFailure, hfail]

/-- C4 (amended): re-applying a record does not report "no change".
Whenever the update path runs on a matched client with
`sync_client_contact_info` enabled, a non-null incoming first name and
a store whose persistence operations succeed, the phase reports
`updated_client = true` — `_update_client` marks an update whenever any
non-null field is applied, without comparing incoming values to stored
ones; in particular a second invocation with the very same record
(whose fields then all equal the stored values) still reports an
update. -/
theorem C4_amended_update_always_reported (st : Store) (firm : Firm) (row : Row)
    (results : ImportResults) (c : Client) (fn : FieldNames) (v : String)
    (hsync : firm.sync_client_contact_info = true)
    (hfn : fn.first_name = some v)
    (hfail : st.failures = []) :
    phaseUpdatedFlag (client_update_phase st firm row results (some c) fn false) =
      some true := by
  have hp2 : (updatePatch firm fn c).first_name = some v :=
    (updatePatch_first_name_of_sync firm fn c hsync).trans hfn
  have hempty : (updatePatch firm fn c).isEmpty = false :=
    isEmpty_false_of_first_name _ v hp2
  have hupd := update_client_ok st c (updatePatch firm fn c) v hp2 hfail
  simp only [client_update_phase, hsync, Bool.true_or, if_true, hempty,
    Bool.not_false, hupd, repoSaveExisting, popFailure, hfail, phaseUpdatedFlag,
    Bool.or_true]

/-- C4 (amended) witness: after the first `janeRecord` run the stored
client's fields already match the record (`storeAfterFirstJaneRun`),
yet the update phase on that store still reports an update. -/
theorem C4_amended_update_always_reported_witness :
    firmSyncOnly.sync_client_contact_info = true ∧
    janeRecord.first_name = some "Jane" ∧
    storeAfterFirstJaneRun.failures = [] ∧
    phaseUpdatedFlag (client_update_phase storeAfterFirstJaneRun firmSyncOnly {} {}
      (some ((storeAfterFirstJaneRun.clients.head?).getD {})) janeRecord false) =
      some true := by
  refine ⟨by decide, by decide, by decide, ?_⟩
  exact C4_amended_update_always_reported storeAfterFirstJaneRun firmSyncOnly {} {}
    ((storeAfterFirstJaneRun.clients.head?).getD {}) janeRecord "Jane"
    (by decide) (by decide) (by decide)

/-! ### C6 -/

/-- Inversion for a successful `_update_client`: the returned instance
is the patch applied to the input instance. -/
lemma update_client_ok_client (st : Store) (c : Client) (p : Patch)
    (c' : Client) (u : Bool) (st' : Store)
    (h : update_client st c p = Except.ok (c', u, st')) :
    c' = (applyPatch c p).1 := by
  rw [update_client] at h
  simp only [] at h
  by_cases ha : (applyPatch c p).2 = true
  · rw [if_pos ha] at h
    cases hp : (popFailure st).1 with
    | some msg =>
      rw [hp] at h
      exact absurd h (by simp)
    | none =>
      rw [hp] at h
      have h2 := (Except.ok.injEq _ _).mp h
      exact ((Prod.mk.injEq _ _ _ _).mp h2).1.symm
  · rw [if_neg ha] at h
    have h2 := (Except.ok.injEq _ _).mp h
    exact ((Prod.mk.injEq _ _ _ _).mp h2).1.symm

/-- With no incoming cell phone, the contact patch has no cell-phone key. -/
lemma buildContactPatch_cell_none (fn : FieldNames) (h : fn.cell_phone = none) :
    (buildContactPatch fn).cell_phone = none := by
  simp [buildContactPatch, h]

/-- The missing-data entries never touch `cell_phone`. -/
lemma buildMissingDataPatch_cell (p : Patch) (fn : FieldNames) (c : Client) :
    (buildMissingDataPatch p fn c).cell_phone = p.cell_phone := by
  simp only [buildMissingDataPatch]
  split <;> split <;> split <;> rfl

/-- SSN encryption never touches `cell_phone`. -/
lemma encryptPatchSsn_cell (p : Patch) :
    (encryptPatchSsn p).cell_phone = p.cell_phone := by
  simp only [encryptPatchSsn]
  cases h : p.ssn <;> rfl

/-- The full update patch holds no cell-phone key when the incoming
record supplies none, whatever the firm's settings. -/
lemma updatePatch_cell_none (firm : Firm) (fn : FieldNames) (c : Client)
    (h : fn.cell_phone = none) :
    (updatePatch firm fn c).cell_phone = none := by
  simp only [updatePatch]
  by_cases hs : firm.sync_client_contact_info = true
  all_goals by_cases hu : firm.update_client_missing_data = true
  · simp [hs, hu, encryptPatchSsn_cell, buildMissingDataPatch_cell,
      buildContactPatch_cell_none fn h]
  · simp [hs, hu, encryptPatchSsn_cell, buildContactPatch_cell_none fn h]
  · simp [hs, hu, encryptPatchSsn_cell, buildMissingDataPatch_cell]
  · simp [hs, hu, encryptPatchSsn_cell]

/-- Applying a patch without a cell-phone key leaves the stored cell
phone untouched. -/
lemma applyPatch_cell_preserved (c : Client) (p : Patch)
    (h : p.cell_phone = none) :
    (applyPatch c p).1.cell_phone = c.cell_phone := by
  obtain ⟨pf, pl, pe, pc, pb, ps, pi⟩ := p
  simp only at h
  subst h
  cases pf <;> cases pl <;> cases pe <;> cases pb <;> cases ps <;> cases pi <;> rfl

/-- Through the whole update block (patch build, `_update_client`,
final save), a record without a cell phone leaves the matched client's
cell phone unchanged. -/
lemma client_update_phase_cell_preserved (st : Store) (firm : Firm) (row : Row)
    (results : ImportResults) (c : Client) (fn : FieldNames) (validation : Bool)
    (r : ImportResults) (row2 : Row) (st2 : Store) (c' : Client)
    (hcell : fn.cell_phone = none)
    (hphase : client_update_phase st firm row results (some c) fn validation =
      Except.ok (r, row2, st2))
    (hc' : r.client = some c') :
    c'.cell_phone = c.cell_phone := by
  have hpcell : (updatePatch firm fn c).cell_phone = none :=
    updatePatch_cell_none firm fn c hcell
  rw [client_update_phase] at hphase
  simp only [] at hphase
  split at hphase
  · split at hphase
    · exact absurd hphase (by simp)
    · rename_i c1 updatedFlag row1 st1 hafter
      split at hphase
      · exact absurd hphase (by simp)
      · rename_i st2v hsave
        have h2 := (Except.ok.injEq _ _).mp hphase
        obtain ⟨hr, _, _⟩ := (Prod.mk.injEq _ _ _ _).mp h2
        rw [← hr] at hc'
        have hc1 : c1 = c' := by simpa using hc'
        rw [← hc1]
        split at hafter
        · split at hafter
          · exact absurd hafter (by simp)
          · rename_i c1b u1 st1b hupd
            have hc1b : c1b = (applyPatch c (updatePatch firm fn c)).1 :=
              update_client_ok_client st c _ c1b u1 st1b hupd
            split at hafter
            · have h3 := (Except.ok.injEq _ _).mp hafter
              obtain ⟨he1, _, _⟩ := (Prod.mk.injEq _ _ _ _).mp h3
              rw [← he1, hc1b]
              exact applyPatch_cell_preserved c _ hpcell
            · have h3 := (Except.ok.injEq _ _).mp hafter
              obtain ⟨he1, _, _⟩ := (Prod.mk.injEq _ _ _ _).mp h3
              rw [← he1, hc1b]
              exact applyPatch_cell_preserved c _ hpcell
        · have h3 := (Except.ok.injEq _ _).mp hafter
          obtain ⟨he1, _, _⟩ := (Prod.mk.injEq _ _ _ _).mp h3
          rw [← he1]
  · have h2 := (Except.ok.injEq _ _).mp hphase
    obtain ⟨hr, _, _⟩ := (Prod.mk.injEq _ _ _ _).mp h2
    rw [← hr] at hc'
    have hcc : c = c' := by simpa using hc'
    rw [← hcc]

/-- C6: a client's cell phone is never nulled by an update. For every
firm with `sync_client_contact_info` enabled and every incoming record
whose filtered phone list is empty and whose `cell_phone` value is
absent or null: (1) the computed patch contains no cell-phone key; and
(2) whenever the reconciliation entry point matches a stored client
with a non-null cell phone and returns normally, the client it reports
still carries exactly that cell phone. -/
theorem C6_cell_phone_never_nulled :
    (∀ firm fn c, firm.sync_client_contact_info = true → fn.cell_phone = none →
       (updatePatch firm fn c).cell_phone = none) ∧
    (∀ st firm row fn it iid cnc valid c p r fn2 row2 st2 c',
       firm.sync_client_contact_info = true →
       filter_cell_phone_numbers fn.phone_numbers firm = [] →
       fn.cell_phone = none →
       c.cell_phone = some p →
       (find_existing_client st firm iid fn.email
           (filter_cell_phone_numbers fn.phone_numbers firm)
           (derive_names fn.name fn.first_name fn.last_name).1
           (derive_names fn.name fn.first_name fn.last_name).2).1.client = some c →
       import_client_handler st firm row fn it iid cnc valid =
         Except.ok (r, fn2, row2, st2) →
       r.client = some c' →
       c'.cell_phone = some p) := by
  constructor
  · intro firm fn c _ hcell
    exact updatePatch_cell_none firm fn c hcell
  · intro st firm row fn it iid cnc valid c p r fn2 row2 st2 c'
      _ _ hcell hc hmatch hrun hc'
    rw [import_client_handler] at hrun
    simp only [extract_client_data, process_phone_numbers] at hrun
    rw [hmatch] at hrun
    simp only [Option.isNone_some, Bool.false_and, Bool.false_eq_true, if_false,
      client_create_phase, Bool.and_eq_true] at hrun
    split at hrun
    · exact absurd hrun (by simp)
    · rename_i hphase
      have h2 := (Except.ok.injEq _ _).mp hrun
      obtain ⟨hr, _, _, _⟩ := (Prod.mk.injEq _ _ _ _).mp h2
      rw [← hr] at hc'
      refine (client_update_phase_cell_preserved _ firm _ _ c _ valid _ _ _ c'
        ?_ hphase hc').trans hc
      split <;> split <;> simp [hcell]

/-- Projection: the mutated `field_names` of a normal handler return. -/
def fieldNamesOf (e : Except String (ImportResults × FieldNames × Row × Store)) :
    Option FieldNames :=
  match e with
  | Except.ok r => some r.2.1
  | Except.error _ => none

/-- Projection: the mutated `row` of a normal handler return. -/
def rowOf (e : Except String (ImportResults × FieldNames × Row × Store)) :
    Option Row :=
  match e with
  | Except.ok r => some r.2.2.1
  | Except.error _ => none

/-- An incoming record with an empty phone list and no cell phone. -/
def noPhoneRecord : FieldNames :=
  { first_name := some "Jane", last_name := some "Smith", email := some "jane@x.com" }

/-- The reconciliation run used by the C6 witness: `noPhoneRecord`
against the stored `johnClient` (cell phone "555-0199"). -/
def c6Run : Except String (ImportResults × FieldNames × Row × Store) :=
  import_client_handler { clients := [johnClient] } firmSyncOnly {} noPhoneRecord
    none (some "id1") false false

/-- C6 witness: the theorem evaluated on `noPhoneRecord` against
`johnClient` — the patch has no cell-phone key and the reported client
keeps cell phone "555-0199". -/
theorem C6_cell_phone_never_nulled_witness :
    (updatePatch firmSyncOnly noPhoneRecord johnClient).cell_phone = none ∧
    (((outcomeOf c6Run).getD {}).client.getD {}).cell_phone = some "555-0199" := by
  constructor
  · exact C6_cell_phone_never_nulled.1 firmSyncOnly noPhoneRecord johnClient
      (by decide) (by decide)
  · exact C6_cell_phone_never_nulled.2 { clients := [johnClient] } firmSyncOnly {}
      noPhoneRecord none (some "id1") false false johnClient "555-0199"
      ((outcomeOf c6Run).getD {}) ((fieldNamesOf c6Run).getD {})
      ((rowOf c6Run).getD {}) ((storeOf c6Run).getD {})
      ((((outcomeOf c6Run).getD {}).client).getD {})
      (by decide) (by decide) (by decide) (by decide) (by decide) rfl (by decide)

/-- With a non-corporate firm and an empty filtered list, a lookup with
an integration id that matches nothing finds neither client nor orphan
(email matching is corporate-only, and there are no numbers to try). -/
lemma find_existing_client_nomatch (st : Store) (firm : Firm)
    (iid email fn ln : Option String)
    (hfirm : firm.is_corporate = false)
    (hiid : find_by_integration_id st firm.id iid = none) :
    (find_existing_client st firm iid email [] fn ln).1 =
      { client := none, orphaned_user := none, matched_phone := none } := by
  cases h : truthy iid <;>
    simp [find_existing_client, h, hiid, hfirm, phoneLookupLoop, orphanLookupLoop]

/-- C7 (amended): for every non-corporate firm and record whose filtered
phone list is empty and whose integration id matches no stored client,
PROVIDED the name requirement passes (a truthy derived first name, and
for CSV-import/third-party sources also a truthy derived last name —
the name check fires first), reconciliation rejects with the
phone-required error regardless of email validity; the message is
formatted with the raw display string of all non-null supplied numbers,
or the literal placeholder `<None>` when the supplied list is empty. -/
theorem C7_amended_phone_required_after_name_check (st : Store) (firm : Firm)
    (row : Row) (fn : FieldNames) (it iid : Option String) (cnc valid : Bool)
    (hfirm : firm.is_corporate = false)
    (hphones : filter_cell_phone_numbers fn.phone_numbers firm = [])
    (hiid : find_by_integration_id st firm.id iid = none)
    (hn1 : truthy (derive_names fn.name fn.first_name fn.last_name).1 = true)
    (hn2 : it = some CSV_IMPORT ∨ it = some THIRD_PARTY →
      truthy (derive_names fn.name fn.first_name fn.last_name).2 = true) :
    (outcomeOf (import_client_handler st firm row fn it iid cnc valid)).map
      (fun r => (r.row.error_message, r.row.error_fields,
                 r.created_client, r.updated_client)) =
      some (some (CELL_PHONE_INVALID_fmt
          (if fn.phone_numbers.isEmpty then "<None>"
           else String.intercalate ", " (fn.phone_numbers.filterMap id))),
        some ["client_cell_phone"], false, false) := by
  have hmatch := find_existing_client_nomatch st firm iid fn.email
    (derive_names fn.name fn.first_name fn.last_name).1
    (derive_names fn.name fn.first_name fn.last_name).2 hfirm hiid
  rw [import_client_handler]
  simp only [extract_client_data, process_phone_numbers]
  rw [hphones, hmatch]
  by_cases hit : (it == some CSV_IMPORT || it == some THIRD_PARTY) = true
  · have hit' : it = some CSV_IMPORT ∨ it = some THIRD_PARTY := by
      rcases Bool.or_eq_true _ _ |>.mp hit with h | h
      · exact Or.inl (by simpa using h)
      · exact Or.inr (by simpa using h)
    simp [validate_client_input, hit, hn1, hn2 hit', hfirm, outcomeOf]
    constructor <;> split <;> first | rfl | (split <;> rfl)
  · have hit2 : (it == some CSV_IMPORT || it == some THIRD_PARTY) = false := by
      cases h : (it == some CSV_IMPORT || it == some THIRD_PARTY)
      · rfl
      · exact absurd h hit
    simp [validate_client_input, hit2, hn1, hfirm, outcomeOf]
    constructor <;> split <;> first | rfl | (split <;> rfl)

/-- A record with valid names whose only phone number fails validation
(it contains "invalid"), leaving the filtered list empty. -/
def c7Record : FieldNames :=
  { first_name := some "Ann", last_name := some "Bell",
    phone_numbers := [some "invalidX"] }

/-- C7 (amended) witness: the amended theorem evaluated on `c7Record`
for a CSV-import under the bare non-corporate firm — the rejection is
phone-required, and the message shows the raw (unfiltered) number. -/
theorem C7_amended_phone_required_after_name_check_witness :
    (outcomeOf (import_client_handler {} firmBare {} c7Record (some CSV_IMPORT)
        (some "new-9") true false)).map
      (fun r => (r.row.error_message, r.row.error_fields,
                 r.created_client, r.updated_client)) =
      some (some "Cell phone invalid: invalidX",
        some ["client_cell_phone"], false, false) := by
  exact (C7_amended_phone_required_after_name_check {} firmBare {} c7Record
    (some CSV_IMPORT) (some "new-9") true false
    (by decide) (by decide) (by decide) (by decide) (by decide)).trans (by decide)
